import Mathlib

/-!
Shallow embedding of the packstack installer plugins
`src/plugins/swift_600.py` and `src/packstack/plugins/serverprep_001.py`.

Python strings are modelled by `String`, Python ints by `Int`, Python
exceptions by `Except`-valued functions.  The helper functions `pysplit`,
`pystrip`, `pyEndswith`, `basename` and `pymod` model the Python string and
arithmetic primitives used by the two plugins (`str.split` with a one-character
separator, `str.strip`, `str.endswith`, `os.path.split(p)[1]`, and `%` on
ints, which is floor modulus and raises `ZeroDivisionError` on modulus 0).
-/

namespace Packstack

/-- The characters Python's `str.strip()` removes: every character with the
Unicode whitespace property: tab through carriage return (09-0D), the file,
group, record and unit separators (1C-1F), space, next line (85), no-break
space (A0), ogham space mark (1680), the en-quad to hair-space range
(2000-200A), line separator (2028), paragraph separator (2029), narrow
no-break space (202F), medium mathematical space (205F) and ideographic
space (3000). -/
def isPySpace (c : Char) : Bool :=
  c = ' ' || c = '\t' || c = '\n' || c = '\x0b' || c = '\x0c' || c = '\x0d' ||
  c = '\x1c' || c = '\x1d' || c = '\x1e' || c = '\x1f' || c = '\x85' || c = '\xa0' ||
  c = '\u1680' || ('\u2000' ≤ c && c ≤ '\u200a') || c = '\u2028' || c = '\u2029' ||
  c = '\u202f' || c = '\u205f' || c = '\u3000'

/-- Split a character list at every occurrence of `sep`, keeping empty pieces;
the empty list yields one empty piece, as Python `str.split` does. -/
def splitChars (sep : Char) : List Char → List (List Char)
  | [] => [[]]
  | c :: rest =>
    match splitChars sep rest with
    | [] => [[]]
    | g :: gs => if c = sep then [] :: g :: gs else (c :: g) :: gs

/-- Python `s.split(sep)` for a one-character separator. -/
def pysplit (s : String) (sep : Char) : List String :=
  (splitChars sep s.data).map String.mk

/-- Python `s.strip()`: drop leading and trailing whitespace. -/
def pystrip (s : String) : String :=
  String.mk (((s.data.dropWhile isPySpace).reverse.dropWhile isPySpace).reverse)

/-- Python `s.endswith(suffix)`. -/
def pyEndswith (s suffix : String) : Bool :=
  suffix.data.isSuffixOf s.data

/-- Python `s.rstrip('/')`. -/
def rstripSlash (s : String) : String :=
  String.mk (s.data.reverse.dropWhile (fun c => c = '/')).reverse

/-- Python `os.path.split(p)[1]`: the part of the path after the last slash. -/
def basename (p : String) : String :=
  String.mk (p.data.reverse.takeWhile (fun c => c ≠ '/')).reverse

/-- Exceptions that the swift ring-building code can raise.
`zeroDivisionError` is Python's `ZeroDivisionError`; `invalidConfiguration`
models the installer's `InvalidConfiguration` error (never raised by
`createbuildermanifest` itself, but part of the installer's error vocabulary). -/
inductive RingError where
  | zeroDivisionError
  | invalidConfiguration
  deriving DecidableEq

/-- Python `a % b` on ints: floor modulus (`Int.fmod` has the sign behaviour of
Python `%`), raising `ZeroDivisionError` when the modulus is 0. -/
def pymod (a b : Int) : Except RingError Int :=
  if b = 0 then .error .zeroDivisionError else .ok (Int.fmod a b)

/-- The three kinds of ring device records emitted per storage device. -/
inductive DeviceKind where
  | object
  | container
  | account
  deriving DecidableEq

/-- One `@@ring_*_device` record of the builder manifest
(swift_600.py lines 133-135): kind, host, port, global device index, zone,
and weight. -/
structure RingDevice where
  kind : DeviceKind
  host : String
  port : Nat
  deviceIndex : Int
  zone : Int
  weight : Nat
  deriving DecidableEq

/-- The three records emitted for one host iteration of the device loop in
`createbuildermanifest` (swift_600.py lines 133-135): object on port 6000,
container on 6001, account on 6002, all with weight 10 and the same
host / device index / zone. -/
def deviceRecords (host : String) (devicename zone : Int) : List RingDevice :=
  [⟨.object, host, 6000, devicename, zone, 10⟩,
   ⟨.container, host, 6001, devicename, zone, 10⟩,
   ⟨.account, host, 6002, devicename, zone, 10⟩]

/-- The device loop of `createbuildermanifest` (swift_600.py lines 127-135):
`devicename` starts at 0; for each host the zone is computed as
`devicename % zone_count + 1` *before* `devicename` is incremented, and the
emitted records carry the incremented value. -/
def ringDevicesAux (zone_count : Int) (devicename : Int) :
    List String → Except RingError (List RingDevice)
  | [] => .ok []
  | host :: rest => do
    let m ← pymod devicename zone_count
    let zone := m + 1
    let tail ← ringDevicesAux zone_count (devicename + 1) rest
    .ok (deviceRecords host (devicename + 1) zone ++ tail)

/-- Ring assignment of `createbuildermanifest`: split the
`CONFIG_SWIFT_STORAGE_HOSTS` string on commas (hosts are *not* stripped here)
and run the device loop. -/
def ringDevices (hostsString : String) (zone_count : Int) :
    Except RingError (List RingDevice) :=
  ringDevicesAux zone_count 0 (pysplit hostsString ',')

/-- Name of the ring-builder manifest file (swift_600.py line 124). -/
def ringManifestFile (builderHost : String) : String :=
  builderHost ++ "_ring_swift.pp"

/-- The five swift configuration values collected by swift_600.py `initConfig`
(`CONFIG_SWIFT_PROXY_HOSTS`, `CONFIG_SWIFT_STORAGE_HOSTS`,
`CONFIG_SWIFT_STORAGE_ZONES` after `int()`, `CONFIG_SWIFT_STORAGE_REPLICAS`,
`CONFIG_SWIFT_STORAGE_FSTYPE`). -/
structure SwiftConfig where
  proxyHosts : String
  storageHosts : String
  storageZones : Int
  storageReplicas : Int
  storageFstype : String
  deriving DecidableEq

/-- `createbuildermanifest` (swift_600.py lines 121-137): the builder host is
the first proxy host, the manifest file is `<builderHost>_ring_swift.pp`, and
the body is the sequence of ring device records. -/
def createbuildermanifest (c : SwiftConfig) :
    Except RingError (String × List RingDevice) := do
  let builderHost := (pysplit c.proxyHosts ',').headD ""
  let devs ← ringDevices c.storageHosts c.storageZones
  .ok (ringManifestFile builderHost, devs)

/-- Python `host_counts[host] = host_counts.get(host, 0) + 1` on an
association list standing for the dict in `createstoragemanifest`. -/
def bump (counts : List (String × Nat)) (key : String) : List (String × Nat) :=
  match counts with
  | [] => [(key, 1)]
  | (k, n) :: rest => if k = key then (k, n + 1) :: rest else (k, n) :: bump rest key

/-- Look a key up in the association list, 0 when absent
(Python `host_counts.get(host, 0)`). -/
def lookupCount (counts : List (String × Nat)) (key : String) : Nat :=
  match counts with
  | [] => 0
  | (k, n) :: rest => if k = key then n else lookupCount rest key

/-- The host→count mapping of `createstoragemanifest` (swift_600.py lines
149-152): split the hosts string on commas, *strip* each entry, and count
occurrences. -/
def host_counts (hostsString : String) : List (String × Nat) :=
  (pysplit hostsString ',').foldl (fun acc h => bump acc (pystrip h)) []

/-- Device count that `createstoragemanifest` computes for a given host name. -/
def storageDeviceCount (hostsString host : String) : Nat :=
  lookupCount (host_counts hostsString) host

/-- Number of storage devices in the builder manifest for a given host name:
each device contributes exactly one object-kind record. -/
def builderDevicesFor (devs : List RingDevice) (host : String) : Nat :=
  devs.countP (fun d => d.host == host && d.kind == DeviceKind.object)

/-- Number of devices `createbuildermanifest` emits for a given host name
(0 when it raises). -/
def builderCount (hostsString : String) (zone_count : Int) (host : String) : Nat :=
  match ringDevices hostsString zone_count with
  | .ok devs => builderDevicesFor devs host
  | .error _ => 0

/-- `createcommonmanifest` (swift_600.py lines 161-165): for each manifest file
whose name ends with `_swift.pp`, append the `swift_common.pp` template data to
the file's basename.  The result lists the `appendManifestFile` calls made. -/
def createcommonmanifest (files : List String) : List (String × String) :=
  (files.filter fun f => pyEndswith f "_swift.pp").map fun f =>
    (basename f, "swift_common.pp")

/-- The `CONF_NAME` keys of the five parameters declared by swift_600.py
`initConfig` (lines 27-88), in declaration order. -/
def swiftConfNames : List String :=
  ["CONFIG_SWIFT_PROXY_HOSTS",
   "CONFIG_SWIFT_STORAGE_HOSTS",
   "CONFIG_SWIFT_STORAGE_ZONES",
   "CONFIG_SWIFT_STORAGE_REPLICAS",
   "CONFIG_SWIFT_STORAGE_FSTYPE"]

/-- The `CONF_NAME` keys of the nineteen parameters declared by
serverprep_001.py `initConfig` (lines 38-311), in group order
(SERVERPREPARE, RHEL, RHSM, RHSM_PROXY, SATELLITE, SATELLITE_PROXY). -/
def serverprepConfNames : List String :=
  ["CONFIG_USE_EPEL",
   "CONFIG_REPO",
   "CONFIG_RH_USER",
   "CONFIG_SATELLITE_URL",
   "CONFIG_RH_PW",
   "CONFIG_RH_OPTIONAL",
   "CONFIG_RH_PROXY",
   "CONFIG_RH_PROXY_PORT",
   "CONFIG_RH_PROXY_USER",
   "CONFIG_RH_PROXY_PW",
   "CONFIG_SATELLITE_USER",
   "CONFIG_SATELLITE_PW",
   "CONFIG_SATELLITE_AKEY",
   "CONFIG_SATELLITE_CACERT",
   "CONFIG_SATELLITE_PROFILE",
   "CONFIG_SATELLITE_FLAGS",
   "CONFIG_SATELLITE_PROXY",
   "CONFIG_SATELLITE_PROXY_USER",
   "CONFIG_SATELLITE_PROXY_PW"]

/-- The installer's `InstallError` exception (serverprep_001.py line 418). -/
inductive InstallError where
  | installError
  deriving DecidableEq

/-- Arguments of `run_rhn_reg` (serverprep_001.py lines 391-394).  The call
site (`server_prep`, lines 629-639) always passes strings, with the empty
string for an absent value, so absent/empty are both modelled by `""`. -/
structure RhnRegArgs where
  server_url : String
  username : String
  password : String
  cacert : String
  activation_key : String
  profile_name : String
  proxy_host : String
  proxy_user : String
  proxy_pass : String
  flags : List String
  deriving DecidableEq

/-- Server-url normalisation of `run_rhn_reg` (lines 406-407): keep the url if
it already ends with `/XMLRPC` after stripping trailing slashes, otherwise
append `/XMLRPC`. -/
def xmlrpcUrl (u : String) : String :=
  if pyEndswith (rstripSlash u) "/XMLRPC" then u else u ++ "/XMLRPC"

/-- Authentication branch of `run_rhn_reg` (lines 410-420): returns the
command arguments and masked values it contributes, or raises `InstallError`
when neither an activation key nor a username is given. -/
def authArgs (a : RhnRegArgs) : Except InstallError (List String × List String) :=
  if a.activation_key ≠ "" then
    .ok (["--activationkey", a.activation_key], [])
  else if a.username ≠ "" then
    .ok (["--username", a.username] ++
          (if a.password ≠ "" then ["--password", a.password] else []),
         if a.password ≠ "" then [a.password] else [])
  else
    .error .installError

/-- CA-certificate arguments of `run_rhn_reg` (lines 422-432). -/
def cacertArgs (a : RhnRegArgs) : List String :=
  if a.cacert ≠ "" then
    ["--sslCACert", "/etc/sysconfig/rhn/" ++ basename a.cacert]
  else []

/-- Profile-name arguments of `run_rhn_reg` (lines 434-435). -/
def profileArgs (a : RhnRegArgs) : List String :=
  if a.profile_name ≠ "" then ["--profilename", a.profile_name] else []

/-- Proxy arguments of `run_rhn_reg` (lines 436-442). -/
def proxyArgs (a : RhnRegArgs) : List String :=
  if a.proxy_host ≠ "" then
    ["--proxy", a.proxy_host] ++
      (if a.proxy_user ≠ "" then
        ["--proxyUser", a.proxy_user] ++
          (if a.proxy_pass ≠ "" then ["--proxyPassword", a.proxy_pass] else [])
      else [])
  else []

/-- Proxy password masked by `run_rhn_reg` (line 442). -/
def proxyMask (a : RhnRegArgs) : List String :=
  if a.proxy_host ≠ "" ∧ a.proxy_user ≠ "" ∧ a.proxy_pass ≠ "" then
    [a.proxy_pass]
  else []

/-- `run_rhn_reg` (serverprep_001.py lines 391-451): builds the `rhnreg_ks`
command line and the list of values masked from logs, in the order the source
assembles them; `flags` gets `force` appended (line 445) and each flag becomes
`--<flag>` (lines 446-447). -/
def run_rhn_reg (a : RhnRegArgs) : Except InstallError (List String × List String) := do
  let auth ← authArgs a
  .ok (["/usr/sbin/rhnreg_ks", "--serverUrl", xmlrpcUrl a.server_url]
        ++ auth.1 ++ cacertArgs a ++ profileArgs a ++ proxyArgs a
        ++ (a.flags ++ ["force"]).map (fun i => "--" ++ i),
       auth.2 ++ proxyMask a)

/-- Configuration effect of `manage_rdo` (serverprep_001.py lines 569-609) on
the config mapping.  `rpmQuery` is the result of the local
`rpm -q rdo-release` query: `none` models `ExecuteRuntimeError`, on which the
function returns early (line 578) leaving the config untouched; otherwise line
581 sets `CONFIG_USE_EPEL` to `y`.  No other statement of the function body
writes to `config`; the remaining lines only run remote yum commands and parse
their output. -/
def manage_rdo (rpmQuery : Option String) (config : String → Option String) :
    String → Option String :=
  match rpmQuery with
  | none => config
  | some _ => fun k => if k = "CONFIG_USE_EPEL" then some "y" else config k

/-- Decidable equality of `Except` results, so that concrete runs of the
embedded functions can be checked by `decide`. -/
instance {ε α : Type} [DecidableEq ε] [DecidableEq α] : DecidableEq (Except ε α) := fun a b =>
  match a, b with
  | .error e, .error f => if h : e = f then isTrue (by rw [h]) else isFalse (by simp [h])
  | .error _, .ok _ => isFalse (by simp)
  | .ok _, .error _ => isFalse (by simp)
  | .ok x, .ok y => if h : x = y then isTrue (by rw [h]) else isFalse (by simp [h])

/-- The device list the loop of `createbuildermanifest` produces when
`zone_count` is non-zero (the error-free unfolding of `ringDevicesAux`). -/
def ringLoop (zone_count devicename : Int) : List String → List RingDevice
  | [] => []
  | host :: rest =>
    deviceRecords host (devicename + 1) (Int.fmod devicename zone_count + 1) ++
      ringLoop zone_count (devicename + 1) rest

/-- A concrete `run_rhn_reg` argument set using an activation key. -/
def rhnArgsKey : RhnRegArgs :=
  ⟨"http://sat.example.com", "", "", "", "secretkey", "", "", "", "", []⟩

/-- A concrete `run_rhn_reg` argument set with neither activation key nor
username. -/
def rhnArgsEmpty : RhnRegArgs :=
  ⟨"http://sat.example.com", "", "", "", "", "", "", "", "", []⟩

/-- A concrete config mapping in which the operator chose `n` for
`CONFIG_USE_EPEL`. -/
def epelConfigExample : String → Option String := fun k =>
  if k = "CONFIG_USE_EPEL" then some "n"
  else if k = "CONFIG_REPO" then some "http://repo.example.com" else none

/-! ## Helper lemmas -/

theorem splitChars_ne_nil (sep : Char) : ∀ (l : List Char), splitChars sep l ≠ []
  | [] => by simp [splitChars]
  | c :: rest => by
    have ih := splitChars_ne_nil sep rest
    unfold splitChars
    cases h : splitChars sep rest with
    | nil => exact absurd h ih
    | cons g gs => by_cases hc : c = sep <;> simp [hc]

theorem pysplit_ne_nil (s : String) (sep : Char) : pysplit s sep ≠ [] := by
  unfold pysplit
  have := splitChars_ne_nil sep s.data
  simp [this]

theorem ringDevicesAux_zero (d : Int) :
    ∀ (hosts : List String), hosts ≠ [] →
      ringDevicesAux 0 d hosts = .error RingError.zeroDivisionError
  | [], h => absurd rfl h
  | _ :: _, _ => rfl

theorem ringDevicesAux_eq_ringLoop (zc : Int) (h : zc ≠ 0) :
    ∀ (hosts : List String) (d : Int), ringDevicesAux zc d hosts = .ok (ringLoop zc d hosts)
  | [], _ => rfl
  | host :: rest, d => by
    simp only [ringDevicesAux, ringLoop, pymod, h, if_false,
      ringDevicesAux_eq_ringLoop zc h rest (d + 1), ite_false]
    rfl

theorem ringLoop_enumFrom (zc : Int) :
    ∀ (hosts : List String) (n : Nat),
      ringLoop zc n hosts =
        (hosts.enumFrom n).flatMap fun p =>
          deviceRecords p.2 ((p.1 : Int) + 1) (Int.fmod p.1 zc + 1)
  | [], _ => rfl
  | host :: rest, n => by
    rw [List.enumFrom_cons, List.flatMap_cons, ringLoop]
    have ih := ringLoop_enumFrom zc rest (n + 1)
    push_cast at ih
    rw [ih]

theorem zone_of_mem_ringLoop (zc : Int) :
    ∀ (hosts : List String) (d0 : Int) (d : RingDevice), d ∈ ringLoop zc d0 hosts →
      d.zone = Int.fmod (d.deviceIndex - 1) zc + 1
  | [], _, _, h => absurd h (List.not_mem_nil _)
  | host :: rest, d0, d, h => by
    rw [ringLoop, List.mem_append] at h
    rcases h with h | h
    · simp only [deviceRecords, List.mem_cons, List.not_mem_nil, or_false] at h
      rcases h with h | h | h <;> subst h <;> simp
    · exact zone_of_mem_ringLoop zc rest (d0 + 1) d h

theorem builderDevicesFor_ringLoop (zc : Int) (j : String) :
    ∀ (hosts : List String) (d0 : Int),
      builderDevicesFor (ringLoop zc d0 hosts) j = hosts.count j
  | [], _ => rfl
  | host :: rest, d0 => by
    have ih := builderDevicesFor_ringLoop zc j rest (d0 + 1)
    rw [ringLoop]
    unfold builderDevicesFor at ih ⊢
    rw [List.countP_append, ih, List.count_cons]
    by_cases hj : host = j
    · subst hj
      simp [deviceRecords, List.countP_cons]
      omega
    · have hb : (host == j) = false := by simp [hj]
      simp [deviceRecords, List.countP_cons, hb]

theorem lookupCount_bump :
    ∀ (acc : List (String × Nat)) (k j : String),
      lookupCount (bump acc k) j = lookupCount acc j + (if k = j then 1 else 0)
  | [], k, j => by
    simp only [bump, lookupCount]
    split_ifs <;> simp_all
  | (k', n) :: rest, k, j => by
    unfold bump
    by_cases hk : k' = k
    · subst hk
      simp only [if_pos rfl, lookupCount]
      split_ifs <;> simp_all
    · rw [if_neg hk]
      unfold lookupCount
      by_cases hj : k' = j
      · subst hj
        rw [if_pos rfl, if_pos rfl, if_neg (fun h => hk h.symm)]
        omega
      · rw [if_neg hj, if_neg hj, lookupCount_bump rest k j]

theorem lookupCount_foldl :
    ∀ (l : List String) (acc : List (String × Nat)) (j : String),
      lookupCount (l.foldl (fun a h => bump a (pystrip h)) acc) j
        = lookupCount acc j + (l.map pystrip).count j
  | [], acc, j => by simp
  | h :: t, acc, j => by
    simp only [List.foldl_cons, List.map_cons, List.count_cons]
    rw [lookupCount_foldl t (bump acc (pystrip h)) j, lookupCount_bump]
    simp only [beq_iff_eq]
    split_ifs <;> omega

theorem authArgs_key (a : RhnRegArgs) (hk : a.activation_key ≠ "") :
    authArgs a = .ok (["--activationkey", a.activation_key], []) := by
  unfold authArgs
  rw [if_pos hk]

theorem authArgs_user (a : RhnRegArgs) (hk : a.activation_key = "") (hu : a.username ≠ "") :
    authArgs a = .ok (["--username", a.username] ++
        (if a.password ≠ "" then ["--password", a.password] else []),
      if a.password ≠ "" then [a.password] else []) := by
  unfold authArgs
  rw [if_neg (by simp [hk]), if_pos hu]

theorem authArgs_none (a : RhnRegArgs) (hk : a.activation_key = "") (hu : a.username = "") :
    authArgs a = .error .installError := by
  unfold authArgs
  rw [if_neg (by simp [hk]), if_neg (by simp [hu])]

theorem run_rhn_reg_ok (a : RhnRegArgs) (auth : List String × List String)
    (h : authArgs a = .ok auth) :
    run_rhn_reg a =
      .ok (["/usr/sbin/rhnreg_ks", "--serverUrl", xmlrpcUrl a.server_url]
            ++ auth.1 ++ cacertArgs a ++ profileArgs a ++ proxyArgs a
            ++ (a.flags ++ ["force"]).map (fun i => "--" ++ i),
           auth.2 ++ proxyMask a) := by
  unfold run_rhn_reg
  rw [h]
  rfl

theorem run_rhn_reg_auth_error (a : RhnRegArgs) (h : authArgs a = .error .installError) :
    run_rhn_reg a = .error .installError := by
  unfold run_rhn_reg
  rw [h]
  rfl

/-! ## Claims -/

/-- Claim C1: for every comma-separated storage host list and every
`zone_count ≥ 1`, the ring assignment of `createbuildermanifest` gives the
devices sequential indices starting at 1 in input order (the device emitted
for the host at position `p` carries index `p + 1`), each device's zone is
`((device_index - 1) mod zone_count) + 1`, and every assigned zone lies in
`[1, zone_count]`. -/
theorem claimC1 (hosts : List String) (zc : Int) (h : 1 ≤ zc) :
    ringDevicesAux zc 0 hosts =
      .ok (hosts.enum.flatMap fun p =>
        deviceRecords p.2 ((p.1 : Int) + 1) (Int.fmod (((p.1 : Int) + 1) - 1) zc + 1))
    ∧ ∀ devs, ringDevicesAux zc 0 hosts = .ok devs → ∀ d ∈ devs,
        d.zone = Int.fmod (d.deviceIndex - 1) zc + 1 ∧ 1 ≤ d.zone ∧ d.zone ≤ zc := by
  have hzc : zc ≠ 0 := by omega
  constructor
  · rw [ringDevicesAux_eq_ringLoop zc hzc hosts 0,
      show (0 : Int) = ((0 : Nat) : Int) from rfl, ringLoop_enumFrom zc hosts 0,
      show hosts.enum = hosts.enumFrom 0 from rfl]
    simp [Int.add_sub_cancel]
  · intro devs hdevs d hd
    rw [ringDevicesAux_eq_ringLoop zc hzc hosts 0] at hdevs
    obtain rfl := (Except.ok.inj hdevs).symm
    have hz := zone_of_mem_ringLoop zc hosts 0 d hd
    have h0 := Int.fmod_nonneg' (d.deviceIndex - 1) (show (0:Int) < zc by omega)
    have h1 := Int.fmod_lt_of_pos (d.deviceIndex - 1) (show (0:Int) < zc by omega)
    omega

/-- Claim C1 witness: the spec's example — hosts `h1,h1,h2` with two zones
give devices (h1, index 1, zone 1), (h1, index 2, zone 2), (h2, index 3,
zone 1). -/
theorem claimC1_witness :
    ringDevicesAux 2 0 ["h1", "h1", "h2"] =
      .ok (deviceRecords "h1" 1 1 ++ deviceRecords "h1" 2 2 ++ deviceRecords "h2" 3 1) := by
  have h := claimC1 ["h1", "h1", "h2"] 2 (by norm_num)
  rw [h.1]
  rfl

/-- Claim C2 counterexample: with `zone_count = 0` the ring assignment fails
with `ZeroDivisionError`, not with `InvalidConfiguration` as claimed — there
is no zone-count validation in `createbuildermanifest`. -/
theorem claimC2_counterexample :
    ringDevices "localhost" 0 = .error RingError.zeroDivisionError
    ∧ ringDevices "localhost" 0 ≠ .error RingError.invalidConfiguration := by decide

/-- Claim C2 (amended): for every storage-hosts string, `zone_count = 0` makes
the ring assignment fail with Python's `ZeroDivisionError` (the host list
obtained by splitting is never empty, so the modulus is always reached), and a
negative `zone_count` does not fail at all. -/
theorem claimC2 (hostsString : String) (zc : Int) :
    ringDevices hostsString 0 = .error RingError.zeroDivisionError
    ∧ (zc < 0 → (ringDevices hostsString zc).isOk = true) := by
  constructor
  · exact ringDevicesAux_zero 0 _ (pysplit_ne_nil hostsString ',')
  · intro hneg
    unfold ringDevices
    rw [ringDevicesAux_eq_ringLoop zc (by omega) _ 0]
    rfl

/-- Claim C2 witness: concrete run at `localhost` with zone counts 0 and -2. -/
theorem claimC2_witness :
    ringDevices "localhost" 0 = .error RingError.zeroDivisionError
    ∧ (ringDevices "localhost" (-2)).isOk = true :=
  ⟨(claimC2 "localhost" (-2)).1, (claimC2 "localhost" (-2)).2 (by norm_num)⟩

/-- Claim C3: for every device, `createbuildermanifest` emits exactly three
ring-device records — object, container, account, in that order — each
carrying the device's host, index and zone, with weight 10 and ports
6000 / 6001 / 6002 respectively. -/
theorem claimC3 (hosts : List String) (zc : Int) (hzc : zc ≠ 0) :
    ringDevicesAux zc 0 hosts =
      .ok ((hosts.enum.map fun p => (p.2, ((p.1 : Int) + 1, Int.fmod p.1 zc + 1))).flatMap
        fun t => [⟨DeviceKind.object, t.1, 6000, t.2.1, t.2.2, 10⟩,
                  ⟨DeviceKind.container, t.1, 6001, t.2.1, t.2.2, 10⟩,
                  ⟨DeviceKind.account, t.1, 6002, t.2.1, t.2.2, 10⟩]) := by
  rw [ringDevicesAux_eq_ringLoop zc hzc hosts 0,
    show (0 : Int) = ((0 : Nat) : Int) from rfl, ringLoop_enumFrom zc hosts 0,
    show hosts.enum = hosts.enumFrom 0 from rfl, List.flatMap_map]
  rfl

/-- Claim C3 witness: two hosts with three zones give six records with the
fixed kind / port pattern. -/
theorem claimC3_witness :
    ringDevicesAux 3 0 ["h1", "h2"] =
      .ok [⟨DeviceKind.object, "h1", 6000, 1, 1, 10⟩,
           ⟨DeviceKind.container, "h1", 6001, 1, 1, 10⟩,
           ⟨DeviceKind.account, "h1", 6002, 1, 1, 10⟩,
           ⟨DeviceKind.object, "h2", 6000, 2, 2, 10⟩,
           ⟨DeviceKind.container, "h2", 6001, 2, 2, 10⟩,
           ⟨DeviceKind.account, "h2", 6002, 2, 2, 10⟩] := by
  have h := claimC3 ["h1", "h2"] 3 (by norm_num)
  rw [h]
  rfl

/-- Claim C4: zone assignment is periodic with period `zone_count` — any two
devices of one run whose indices differ by exactly `zone_count` carry the same
zone. -/
theorem claimC4 (hosts : List String) (zc : Int) (h : 1 ≤ zc) (devs : List RingDevice)
    (hdevs : ringDevicesAux zc 0 hosts = .ok devs) (d₁ d₂ : RingDevice)
    (h₁ : d₁ ∈ devs) (h₂ : d₂ ∈ devs) (hidx : d₂.deviceIndex = d₁.deviceIndex + zc) :
    d₂.zone = d₁.zone := by
  have hzc : zc ≠ 0 := by omega
  rw [ringDevicesAux_eq_ringLoop zc hzc hosts 0] at hdevs
  obtain rfl := (Except.ok.inj hdevs).symm
  have z1 := zone_of_mem_ringLoop zc hosts 0 d₁ h₁
  have z2 := zone_of_mem_ringLoop zc hosts 0 d₂ h₂
  rw [z1, z2, hidx, show d₁.deviceIndex + zc - 1 = (d₁.deviceIndex - 1) + zc by ring,
    Int.fmod_eq_emod _ (by omega), Int.fmod_eq_emod _ (by omega), Int.add_emod_self]

/-- Claim C4 witness: with four hosts and two zones, devices 1 and 3 share
zone 1. -/
theorem claimC4_witness :
    (⟨DeviceKind.object, "c", 6000, 3, 1, 10⟩ : RingDevice).zone =
      (⟨DeviceKind.object, "a", 6000, 1, 1, 10⟩ : RingDevice).zone :=
  claimC4 ["a", "b", "c", "d"] 2 (by norm_num)
    (deviceRecords "a" 1 1 ++ deviceRecords "b" 2 2 ++
      deviceRecords "c" 3 1 ++ deviceRecords "d" 4 2)
    (by decide) _ _ (by decide) (by decide) (by decide)

/-- Claim C5: the ring assignment is deterministic and pure — two
configurations agreeing on `CONFIG_SWIFT_STORAGE_HOSTS` and
`CONFIG_SWIFT_STORAGE_ZONES` give identical device sequences, whatever their
other fields are. -/
theorem claimC5 (c₁ c₂ : SwiftConfig) (hh : c₁.storageHosts = c₂.storageHosts)
    (hz : c₁.storageZones = c₂.storageZones) :
    (createbuildermanifest c₁).map Prod.snd = (createbuildermanifest c₂).map Prod.snd := by
  unfold createbuildermanifest ringDevices
  rw [hh, hz]
  cases h : ringDevicesAux c₂.storageZones 0 (pysplit c₂.storageHosts ',') <;> rfl

/-- Claim C5 witness: two configurations differing in proxy hosts, replica
count and fs type give the same device sequence. -/
theorem claimC5_witness :
    (createbuildermanifest ⟨"proxyA", "h1,h2", 2, 2, "xfs"⟩).map Prod.snd =
      (createbuildermanifest ⟨"proxyB", "h1,h2", 2, 3, "ext4"⟩).map Prod.snd :=
  claimC5 _ _ rfl rfl

/-- Claim C6 counterexample: for `CONFIG_SWIFT_STORAGE_HOSTS = "h1, h1"` the
two construction paths disagree on host `h1`: `createbuildermanifest` (which
does not strip entries) emits 1 device with host name `h1`, while
`createstoragemanifest` (which strips entries) computes 2 devices for `h1`. -/
theorem claimC6_counterexample :
    builderCount "h1, h1" 1 "h1" = 1 ∧ storageDeviceCount "h1, h1" "h1" = 2 := by decide

/-- Claim C6 (amended): the two construction paths agree on every host name
whenever every comma-separated entry of the hosts string is unchanged by
stripping (no whitespace around the commas) and the zone count is non-zero, so
that the builder emits its devices at all. -/
theorem claimC6 (hostsString j : String) (zc : Int) (hzc : zc ≠ 0)
    (hclean : ∀ s ∈ pysplit hostsString ',', pystrip s = s) :
    builderCount hostsString zc j = storageDeviceCount hostsString j := by
  have hb : builderCount hostsString zc j
      = builderDevicesFor (ringLoop zc 0 (pysplit hostsString ',')) j := by
    unfold builderCount
    rw [show ringDevices hostsString zc = .ok (ringLoop zc 0 (pysplit hostsString ','))
      from ringDevicesAux_eq_ringLoop zc hzc _ 0]
  rw [hb, builderDevicesFor_ringLoop]
  unfold storageDeviceCount host_counts
  rw [lookupCount_foldl]
  have hmap : (pysplit hostsString ',').map pystrip = pysplit hostsString ',' := by
    have := List.map_congr_left hclean (g := fun a => a)
    simpa using this
  rw [hmap]
  simp [lookupCount]

/-- Claim C6 witness: a clean hosts string on which both paths count 2 devices
for `h1`. -/
theorem claimC6_witness :
    builderCount "h1,h2,h1" 1 "h1" = storageDeviceCount "h1,h2,h1" "h1" :=
  claimC6 "h1,h2,h1" "h1" 1 (by norm_num) (by decide)

/-- Claim C7: the five swift `CONF_NAME` keys and the nineteen
server-preparation `CONF_NAME` keys are pairwise distinct — no two parameters
in the process share a conf name. -/
theorem claimC7 :
    swiftConfNames.length = 5 ∧ serverprepConfNames.length = 19 ∧
      (swiftConfNames ++ serverprepConfNames).Nodup := by decide

/-- Claim C8: `run_rhn_reg` raises `InstallError` iff both activation key and
username are absent; with an activation key the command includes
`--activationkey` and the username / password arguments are ignored; otherwise
with a username the command includes `--username` and, for a non-empty
password, `--password` with the password masked. -/
theorem claimC8 (a : RhnRegArgs) :
    (run_rhn_reg a = .error InstallError.installError ↔
      a.activation_key = "" ∧ a.username = "")
    ∧ (a.activation_key ≠ "" →
        (∀ u p, run_rhn_reg { a with username := u, password := p } = run_rhn_reg a)
        ∧ ∀ cm, run_rhn_reg a = .ok cm → "--activationkey" ∈ cm.1)
    ∧ (a.activation_key = "" → a.username ≠ "" →
        ∀ cm, run_rhn_reg a = .ok cm →
          "--username" ∈ cm.1 ∧
            (a.password ≠ "" → "--password" ∈ cm.1 ∧ a.password ∈ cm.2)) := by
  refine ⟨⟨fun herr => ?_, fun ⟨hk, hu⟩ => run_rhn_reg_auth_error a (authArgs_none a hk hu)⟩,
    fun hk => ⟨fun u p => ?_, fun cm hcm => ?_⟩, fun hk hu cm hcm => ?_⟩
  · by_cases hk : a.activation_key = ""
    · by_cases hu : a.username = ""
      · exact ⟨hk, hu⟩
      · rw [run_rhn_reg_ok a _ (authArgs_user a hk hu)] at herr
        exact absurd herr (by simp)
    · rw [run_rhn_reg_ok a _ (authArgs_key a hk)] at herr
      exact absurd herr (by simp)
  · rw [run_rhn_reg_ok _ _ (authArgs_key { a with username := u, password := p } hk),
      run_rhn_reg_ok a _ (authArgs_key a hk)]
    rfl
  · rw [run_rhn_reg_ok a _ (authArgs_key a hk)] at hcm
    obtain rfl := (Except.ok.inj hcm).symm
    simp
  · rw [run_rhn_reg_ok a _ (authArgs_user a hk hu)] at hcm
    obtain rfl := (Except.ok.inj hcm).symm
    constructor
    · simp
    · intro hp
      rw [if_pos hp, if_pos hp]
      constructor <;> simp

/-- Claim C8 witness: with an activation key the username / password values do
not change the result, and with neither an activation key nor a username the
call raises `InstallError`. -/
theorem claimC8_witness :
    run_rhn_reg { rhnArgsKey with username := "user1", password := "pw1" } =
      run_rhn_reg rhnArgsKey
    ∧ run_rhn_reg rhnArgsEmpty = .error InstallError.installError :=
  ⟨((claimC8 rhnArgsKey).2.1 (by decide)).1 "user1" "pw1",
   (claimC8 rhnArgsEmpty).1.mpr ⟨rfl, rfl⟩⟩

/-- Claim C9: `createcommonmanifest` selects exactly the manifest files whose
name ends with `_swift.pp`; the ring-builder manifest `<host>_ring_swift.pp`
ends with `_swift.pp` for every host, so whenever it is among the manifest
files it receives the `swift_common.pp` data as well. -/
theorem claimC9 (files : List String) (host : String) :
    (∀ f, (f ∈ files.filter fun g => pyEndswith g "_swift.pp") ↔
      (f ∈ files ∧ pyEndswith f "_swift.pp" = true))
    ∧ pyEndswith (ringManifestFile host) "_swift.pp" = true
    ∧ (ringManifestFile host ∈ files →
        (basename (ringManifestFile host), "swift_common.pp") ∈ createcommonmanifest files) := by
  have hsuffix : pyEndswith (ringManifestFile host) "_swift.pp" = true := by
    unfold pyEndswith ringManifestFile
    rw [String.data_append, List.isSuffixOf_iff_suffix]
    exact List.IsSuffix.trans (by decide) (List.suffix_append _ _)
  refine ⟨fun f => List.mem_filter, hsuffix, fun hmem => ?_⟩
  unfold createcommonmanifest
  exact List.mem_map_of_mem _ (List.mem_filter.mpr ⟨hmem, hsuffix⟩)

/-- Claim C9 witness: the concrete ring manifest of `host1` is selected from a
manifest-file list that also holds a keystone manifest. -/
theorem claimC9_witness :
    pyEndswith (ringManifestFile "host1") "_swift.pp" = true
    ∧ (basename (ringManifestFile "host1"), "swift_common.pp") ∈
        createcommonmanifest ["host1_ring_swift.pp", "x_keystone.pp"] :=
  ⟨(claimC9 ["host1_ring_swift.pp", "x_keystone.pp"] "host1").2.1,
   (claimC9 ["host1_ring_swift.pp", "x_keystone.pp"] "host1").2.2 (by decide)⟩

/-- Claim C10: whenever the local rpm query succeeds, `manage_rdo` sets
`CONFIG_USE_EPEL` to `y` — overwriting any collected value — and changes no
other key of the config mapping. -/
theorem claimC10 (rpmOut : String) (config : String → Option String) :
    manage_rdo (some rpmOut) config "CONFIG_USE_EPEL" = some "y"
    ∧ ∀ k, k ≠ "CONFIG_USE_EPEL" → manage_rdo (some rpmOut) config k = config k := by
  refine ⟨rfl, fun k hk => ?_⟩
  show (if k = "CONFIG_USE_EPEL" then some "y" else config k) = config k
  rw [if_neg hk]

/-- Claim C10 witness: an operator's `n` for `CONFIG_USE_EPEL` is overwritten
to `y` while `CONFIG_REPO` keeps its value. -/
theorem claimC10_witness :
    manage_rdo (some "icehouse-1.el6") epelConfigExample "CONFIG_USE_EPEL" = some "y"
    ∧ manage_rdo (some "icehouse-1.el6") epelConfigExample "CONFIG_REPO" =
        epelConfigExample "CONFIG_REPO" :=
  ⟨(claimC10 "icehouse-1.el6" epelConfigExample).1,
   (claimC10 "icehouse-1.el6" epelConfigExample).2 "CONFIG_REPO" (by decide)⟩

end Packstack
